import Mathlib

/-!
Verification of the scoped measurement primitive in
src/synapse/util/metrics.py: the Measure context manager, its counter
updates on release, and the measure_func decorator.

The collaborators that the fragment consumes but that are not part of the
source under src/ — the Context Provider (synapse.util.logcontext) and the
Counter Registry (synapse.metrics) — are modelled from the spec, as noted
on each definition.  Everything about Measure itself is translated
directly from the source.
-/

/-- Modelled from the spec: an Execution Context of the Context Provider
(synapse.util.logcontext.LoggingContext is not part of the source
fragment).  It carries the five running totals the block snapshots:
CPU user seconds, CPU system seconds, db transaction count, accumulated
db transaction duration in ms and accumulated db scheduling wait in ms.
Context identity (reference equality in the source) is the Nat key under
which the context is stored in the World. -/
structure Context where
  ru_utime : ℚ
  ru_stime : ℚ
  db_txn_count : ℤ
  db_txn_duration_ms : ℚ
  db_sched_duration_ms : ℚ

/-- Modelled from the spec: a freshly created Execution Context
(LoggingContext("Measure")) starts with all running totals at zero. -/
def freshContext : Context :=
  { ru_utime := 0
    ru_stime := 0
    db_txn_count := 0
    db_txn_duration_ms := 0
    db_sched_duration_ms := 0 }

/-- Modelled from the spec: the seven block-name-labelled monotonic
counters of the Counter Registry, each a map from block name to its
accumulated value.  Field names are the metric names registered in the
source. -/
structure Counters where
  block_count : String → ℚ
  block_time_seconds : String → ℚ
  block_ru_utime_seconds : String → ℚ
  block_ru_stime_seconds : String → ℚ
  block_db_txn_count : String → ℚ
  block_db_txn_duration_seconds : String → ℚ
  block_db_sched_duration_seconds : String → ℚ

/-- Modelled from the spec: increment-by-amount by label on one counter
map (CounterMetric.inc_by; inc is inc_by 1). -/
def bump (f : String → ℚ) (label : String) (amt : ℚ) : String → ℚ :=
  fun n => if n = label then f n + amt else f n

/-- A warning reported through the logger by Measure.exit: either the
context-mismatch warning (block name plus both context identities, the
current one possibly absent) or the dedicated context-absence warning
(block name only). -/
inductive WarnEvent where
  | contextChanged (name : String) (startCtx : Nat) (current : Option Nat)
  | expectedContext (name : String)
deriving DecidableEq

/-- Modelled from the spec: the ambient state the block interacts with.
clockMs is the injected clock (clock.time_msec); current is the identity
of the currently active Execution Context, none when absent (the falsy
sentinel returned by LoggingContext.current_context); contexts stores the
context data by identity; nextId allocates fresh identities; counters is
the Counter Registry; warnings collects logger.warn events; exitCount
counts, per context identity, how many times that context has been torn
down (context.exit). -/
structure World where
  clockMs : ℤ
  current : Option Nat
  contexts : Nat → Context
  nextId : Nat
  counters : Counters
  warnings : List WarnEvent
  exitCount : Nat → Nat

/-- The exc_type argument the with-statement passes to Measure.exit:
either none (no exception) or the class of the raised exception. -/
inductive ExcType where
  | noExc : ExcType
  | cls (e : String) : ExcType

/-- The guard isinstance(exc_type, Exception) from the source, evaluated
under Python semantics: exc_type is None or an exception class, and a
class object is an instance of type, never of Exception, so the test is
false for every value exc_type can take (the spec design notes call this
check structurally unreachable). -/
def isinstanceException : ExcType → Bool :=
  fun _ => false

/-- The Measure object: block name, the context observed at start (none
before acquisition), start timestamp, the created_context ownership flag,
and the five baseline snapshots.  The clock reference the source stores
lives in World here.  Measure.init leaves the snapshot fields unset; they
are defaulted to 0 and are only read after enter has set them. -/
structure Measure where
  name : String
  start_context : Option Nat
  start : ℤ
  created_context : Bool
  ru_utime : ℚ
  ru_stime : ℚ
  db_txn_count : ℤ
  db_txn_duration_ms : ℚ
  db_sched_duration_ms : ℚ

/-- Measure.init(clock, name): pure construction; start_context is None
and created_context is False. -/
def Measure.init (name : String) : Measure :=
  { name := name
    start_context := none
    start := 0
    created_context := false
    ru_utime := 0
    ru_stime := 0
    db_txn_count := 0
    db_txn_duration_ms := 0
    db_sched_duration_ms := 0 }

/-- Measure.enter: record start = clock.time_msec(); fetch the current
context; if none is active (falsy sentinel), create a fresh context,
enter it (it becomes current; it was created with no active context, so
tearing it down later restores absence) and set created_context; then
snapshot the five running totals from start_context. -/
def Measure.enter (w : World) (m : Measure) : World × Measure :=
  let start := w.clockMs
  match w.current with
  | some cid =>
    let ctx := w.contexts cid
    (w,
      { m with
        start := start
        start_context := some cid
        ru_utime := ctx.ru_utime
        ru_stime := ctx.ru_stime
        db_txn_count := ctx.db_txn_count
        db_txn_duration_ms := ctx.db_txn_duration_ms
        db_sched_duration_ms := ctx.db_sched_duration_ms })
  | none =>
    let cid := w.nextId
    let w1 := { w with
      current := some cid
      contexts := fun i => if i = cid then freshContext else w.contexts i
      nextId := w.nextId + 1 }
    let ctx := w1.contexts cid
    (w1,
      { m with
        start := start
        start_context := some cid
        created_context := true
        ru_utime := ctx.ru_utime
        ru_stime := ctx.ru_stime
        db_txn_count := ctx.db_txn_count
        db_txn_duration_ms := ctx.db_txn_duration_ms
        db_sched_duration_ms := ctx.db_sched_duration_ms })

/-- Measure.exit(exc_type, exc_val, exc_tb), translated line by line:
return early if isinstance(exc_type, Exception) (always false) or no
baseline context was recorded; compute duration = time_msec() - start;
block_counter.inc(name); block_timer.inc_by(duration, name) — note the
source passes the raw millisecond duration to the block_time_seconds
counter; fetch the current context; if it differs by identity from
start_context, warn (block name and both identities) and return; if it
is absent, warn (block name) and return; otherwise increment the five
resource/DB counters by the deltas against the baseline (the two db
durations divided by 1000); finally, if created_context, tear the
start context down (its exit restores the absent state it was created
in). -/
def Measure.exit (w : World) (m : Measure) (exc : ExcType) : World :=
  if isinstanceException exc then w else
  match m.start_context with
  | none => w
  | some scid =>
    let duration : ℚ := ((w.clockMs - m.start : ℤ) : ℚ)
    let cs0 := w.counters
    let cs1 := { cs0 with
      block_count := bump cs0.block_count m.name 1
      block_time_seconds := bump cs0.block_time_seconds m.name duration }
    let w1 := { w with counters := cs1 }
    if w1.current ≠ some scid then
      { w1 with warnings :=
          w1.warnings ++ [WarnEvent.contextChanged m.name scid w1.current] }
    else if w1.current = none then
      { w1 with warnings := w1.warnings ++ [WarnEvent.expectedContext m.name] }
    else
      let ctx := w1.contexts scid
      let cs2 := { cs1 with
        block_ru_utime_seconds :=
          bump cs1.block_ru_utime_seconds m.name (ctx.ru_utime - m.ru_utime)
        block_ru_stime_seconds :=
          bump cs1.block_ru_stime_seconds m.name (ctx.ru_stime - m.ru_stime)
        block_db_txn_count :=
          bump cs1.block_db_txn_count m.name
            ((ctx.db_txn_count - m.db_txn_count : ℤ) : ℚ)
        block_db_txn_duration_seconds :=
          bump cs1.block_db_txn_duration_seconds m.name
            ((ctx.db_txn_duration_ms - m.db_txn_duration_ms) / 1000)
        block_db_sched_duration_seconds :=
          bump cs1.block_db_sched_duration_seconds m.name
            ((ctx.db_sched_duration_ms - m.db_sched_duration_ms) / 1000) }
      let w2 := { w1 with counters := cs2 }
      if m.created_context then
        { w2 with
          current := none
          exitCount := fun i =>
            if i = scid then w2.exitCount i + 1 else w2.exitCount i }
      else w2

/-- Outcome of running a Python block over the world: normal completion,
or an exception (identified by name) propagating with the world as it was
at raise time. -/
inductive RunResult where
  | ok (w : World)
  | raised (e : String) (w : World)

/-- The statement "with Measure(clock, name): body": enter, run the body,
and on either path call Measure.exit with the corresponding exc_type.
Measure.exit returns None (falsy), so a raised exception is re-raised
unchanged by the with-statement. -/
def withMeasure (name : String) (body : World → RunResult) (w : World) :
    RunResult :=
  let em := Measure.enter w (Measure.init name)
  match body em.1 with
  | RunResult.ok w2 => RunResult.ok (Measure.exit w2 em.2 ExcType.noExc)
  | RunResult.raised e w2 =>
      RunResult.raised e (Measure.exit w2 em.2 (ExcType.cls e))

/-- measure_func(name): wraps the function so its whole body runs inside
with Measure(self.clock, name); the yielded result r is returned
unchanged through defer.returnValue (return values are abstracted away
here, RunResult keeps only the outcome and the world). -/
def measure_func (name : String) (func : World → RunResult) :
    World → RunResult :=
  fun w => withMeasure name func w

/-- All counters at zero, used by the concrete scenarios below. -/
def zeroCounters : Counters :=
  { block_count := fun _ => 0
    block_time_seconds := fun _ => 0
    block_ru_utime_seconds := fun _ => 0
    block_ru_stime_seconds := fun _ => 0
    block_db_txn_count := fun _ => 0
    block_db_txn_duration_seconds := fun _ => 0
    block_db_sched_duration_seconds := fun _ => 0 }

/-- A concrete base world used by the witnesses: clock at 1000ms, context
5 active, fresh ids from 6, all counters zero. -/
def baseWorld : World :=
  { clockMs := 1000
    current := some 5
    contexts := fun _ => freshContext
    nextId := 6
    counters := zeroCounters
    warnings := []
    exitCount := fun _ => 0 }

/-- A concrete acquired Measure for block "x": baseline context 0,
start at 900ms, all snapshots zero, not owning its context. -/
def mAcq : Measure :=
  { name := "x"
    start_context := some 0
    start := 900
    created_context := false
    ru_utime := 0
    ru_stime := 0
    db_txn_count := 0
    db_txn_duration_ms := 0
    db_sched_duration_ms := 0 }

/-- baseWorld with no active context. -/
def absentWorld : World :=
  { baseWorld with current := none }

/-- baseWorld with context 0 (the baseline of mAcq) active. -/
def sameWorld : World :=
  { baseWorld with current := some 0 }

/-- A context that has accumulated the resource usage of the spec example:
2.0s user CPU, 0.5s system CPU, 3 db transactions, 750ms db transaction
time, 100ms db scheduling wait. -/
def ctxBusy : Context :=
  { ru_utime := 2
    ru_stime := 1 / 2
    db_txn_count := 3
    db_txn_duration_ms := 750
    db_sched_duration_ms := 100 }

/-- sameWorld at 1300ms with context 0 replaced by ctxBusy. -/
def busyWorld : World :=
  { sameWorld with
    clockMs := 1300
    contexts := fun i => if i = 0 then ctxBusy else freshContext }

/-- The spec scenario start world: clock at 1000ms, no context active,
all counters zero, fresh identities from 0. -/
def scen0 : World :=
  { clockMs := 1000
    current := none
    contexts := fun _ => freshContext
    nextId := 0
    counters := zeroCounters
    warnings := []
    exitCount := fun _ => 0 }

/-- The world after the scenario work: clock advanced to 1300ms, the
context created at enter (identity 0) has accumulated 2 db transactions
and 400ms of db transaction time, and is still active. -/
def scenMid : World :=
  { (Measure.enter scen0 (Measure.init "x")).1 with
    clockMs := 1300
    contexts := fun i =>
      if i = 0 then
        { ru_utime := 0
          ru_stime := 0
          db_txn_count := 2
          db_txn_duration_ms := 400
          db_sched_duration_ms := 0 }
      else freshContext }

/-- A body that raises the exception "boom" without touching the world. -/
def raiseBoom : World → RunResult :=
  fun w => RunResult.raised "boom" w

/-- baseWorld with context 6 active (the identity a context created by
enter on absentWorld receives). -/
def wCreated : World :=
  { baseWorld with current := some 6 }

section Lemmas

@[simp]
theorem bump_self (f : String → ℚ) (label : String) (amt : ℚ) :
    bump f label amt label = f label + amt := by
  simp [bump]

theorem bump_other (f : String → ℚ) (label : String) (amt : ℚ)
    (n : String) (hn : n ≠ label) : bump f label amt n = f n := by
  simp [bump, hn]

/-- Shared helper: bumping a counter by a non-negative amount never
lowers it at any label. -/
theorem le_bump (f : String → ℚ) (label : String) (amt : ℚ) (n : String)
    (h : 0 ≤ amt) : f n ≤ bump f label amt n := by
  by_cases hn : n = label <;> simp [bump, hn, h]

/-- Shared helper: with a recorded baseline context, exit adds exactly 1
to block_count for the block name, in every branch. -/
theorem exit_block_count (w : World) (m : Measure) (exc : ExcType)
    (scid : Nat) (hs : m.start_context = some scid) :
    (Measure.exit w m exc).counters.block_count m.name
      = w.counters.block_count m.name + 1 := by
  simp only [Measure.exit, isinstanceException, Bool.false_eq_true, if_false, hs]
  by_cases hc : w.current = some scid
  · by_cases hcr : m.created_context <;> simp [hc, hcr, bump]
  · simp [hc, bump]

/-- Shared helper: with a recorded baseline context, exit adds the raw
millisecond duration to block_time_seconds for the block name, in every
branch. -/
theorem exit_block_time (w : World) (m : Measure) (exc : ExcType)
    (scid : Nat) (hs : m.start_context = some scid) :
    (Measure.exit w m exc).counters.block_time_seconds m.name
      = w.counters.block_time_seconds m.name + ((w.clockMs - m.start : ℤ) : ℚ) := by
  simp only [Measure.exit, isinstanceException, Bool.false_eq_true, if_false, hs]
  by_cases hc : w.current = some scid
  · by_cases hcr : m.created_context <;> simp [hc, hcr, bump]
  · simp [hc, bump]

/-- Shared helper: enter always records a baseline context. -/
theorem enter_start_context (w : World) (m : Measure) :
    (Measure.enter w m).2.start_context
      = some (match w.current with | some cid => cid | none => w.nextId) := by
  cases hc : w.current <;> simp [Measure.enter, hc]

/-- Shared helper: enter preserves the block name. -/
theorem enter_name (w : World) (m : Measure) :
    (Measure.enter w m).2.name = m.name := by
  cases hc : w.current <;> simp [Measure.enter, hc]

end Lemmas

/-- C8: if Release runs without a completed Acquire (start_context is
none), Measure.exit returns the world unchanged: no counter incremented,
no warning reported, no context created or torn down. -/
theorem C8_exit_without_enter_noop (w : World) (m : Measure)
    (exc : ExcType) (hs : m.start_context = none) :
    Measure.exit w m exc = w := by
  simp [Measure.exit, isinstanceException, hs]

theorem C8_exit_without_enter_noop_witness :
    (Measure.init "x").start_context = none
    ∧ Measure.exit baseWorld (Measure.init "x") ExcType.noExc = baseWorld :=
  ⟨rfl, C8_exit_without_enter_noop baseWorld (Measure.init "x")
    ExcType.noExc rfl⟩

/-- C6: for every Release after a completed Acquire — whatever context is
active, the same, a different one, or none — block_count for the block
name grows by exactly 1. -/
theorem C6_block_count_always_one (w : World) (m : Measure)
    (exc : ExcType) (scid : Nat) (hs : m.start_context = some scid) :
    (Measure.exit w m exc).counters.block_count m.name
      = w.counters.block_count m.name + 1 :=
  exit_block_count w m exc scid hs

theorem C6_block_count_always_one_witness :
    mAcq.start_context = some 0
    ∧ (Measure.exit baseWorld mAcq ExcType.noExc).counters.block_count mAcq.name
        = baseWorld.counters.block_count mAcq.name + 1 :=
  ⟨rfl, C6_block_count_always_one baseWorld mAcq ExcType.noExc 0 rfl⟩

/-- C2: when the active context at Release differs by identity from the
baseline, the five resource/DB counters are unchanged for every block
name, a contextChanged warning carrying the block name and both context
identities is appended, no context is torn down and the active context is
left alone, yet block_count still grows by 1 and block_time_seconds by
the elapsed wall time. -/
theorem C2_context_mismatch_frame (w : World) (m : Measure) (exc : ExcType)
    (scid : Nat) (n : String) (i : Nat)
    (hs : m.start_context = some scid) (hc : w.current ≠ some scid) :
    (Measure.exit w m exc).counters.block_ru_utime_seconds n
        = w.counters.block_ru_utime_seconds n
    ∧ (Measure.exit w m exc).counters.block_ru_stime_seconds n
        = w.counters.block_ru_stime_seconds n
    ∧ (Measure.exit w m exc).counters.block_db_txn_count n
        = w.counters.block_db_txn_count n
    ∧ (Measure.exit w m exc).counters.block_db_txn_duration_seconds n
        = w.counters.block_db_txn_duration_seconds n
    ∧ (Measure.exit w m exc).counters.block_db_sched_duration_seconds n
        = w.counters.block_db_sched_duration_seconds n
    ∧ (Measure.exit w m exc).warnings
        = w.warnings ++ [WarnEvent.contextChanged m.name scid w.current]
    ∧ (Measure.exit w m exc).exitCount i = w.exitCount i
    ∧ (Measure.exit w m exc).current = w.current
    ∧ (Measure.exit w m exc).counters.block_count m.name
        = w.counters.block_count m.name + 1
    ∧ (Measure.exit w m exc).counters.block_time_seconds m.name
        = w.counters.block_time_seconds m.name
          + ((w.clockMs - m.start : ℤ) : ℚ) := by
  simp [Measure.exit, isinstanceException, hs, hc, bump]

theorem C2_context_mismatch_frame_witness :
    (mAcq.start_context = some 0 ∧ baseWorld.current ≠ some 0)
    ∧ ((Measure.exit baseWorld mAcq ExcType.noExc).counters.block_ru_utime_seconds "other"
        = baseWorld.counters.block_ru_utime_seconds "other"
    ∧ (Measure.exit baseWorld mAcq ExcType.noExc).counters.block_ru_stime_seconds "other"
        = baseWorld.counters.block_ru_stime_seconds "other"
    ∧ (Measure.exit baseWorld mAcq ExcType.noExc).counters.block_db_txn_count "other"
        = baseWorld.counters.block_db_txn_count "other"
    ∧ (Measure.exit baseWorld mAcq ExcType.noExc).counters.block_db_txn_duration_seconds "other"
        = baseWorld.counters.block_db_txn_duration_seconds "other"
    ∧ (Measure.exit baseWorld mAcq ExcType.noExc).counters.block_db_sched_duration_seconds "other"
        = baseWorld.counters.block_db_sched_duration_seconds "other"
    ∧ (Measure.exit baseWorld mAcq ExcType.noExc).warnings
        = baseWorld.warnings ++ [WarnEvent.contextChanged mAcq.name 0 baseWorld.current]
    ∧ (Measure.exit baseWorld mAcq ExcType.noExc).exitCount 3 = baseWorld.exitCount 3
    ∧ (Measure.exit baseWorld mAcq ExcType.noExc).current = baseWorld.current
    ∧ (Measure.exit baseWorld mAcq ExcType.noExc).counters.block_count mAcq.name
        = baseWorld.counters.block_count mAcq.name + 1
    ∧ (Measure.exit baseWorld mAcq ExcType.noExc).counters.block_time_seconds mAcq.name
        = baseWorld.counters.block_time_seconds mAcq.name
          + ((baseWorld.clockMs - mAcq.start : ℤ) : ℚ)) :=
  ⟨⟨rfl, by decide⟩,
    C2_context_mismatch_frame baseWorld mAcq ExcType.noExc 0 "other" 3
      rfl (by decide)⟩

/-- C7 fails as stated: with the baseline context 0 recorded and the
active context absent at Release, the warning that is reported is the
context-mismatch warning, not one produced by the dedicated absence
check — no expectedContext event ever appears. -/
theorem C7_absence_branch_counterexample :
    (Measure.exit absentWorld mAcq ExcType.noExc).warnings
      = [WarnEvent.contextChanged "x" 0 none]
    ∧ WarnEvent.expectedContext "x"
        ∉ (Measure.exit absentWorld mAcq ExcType.noExc).warnings := by
  decide

/-- C7 amended: if the active context is absent at Release after a
completed Acquire, Release warns and stops — but through the
context-mismatch check (the warning names the block, the baseline
identity and the absent current context), since the recorded baseline is
never absent: no resource/DB counter changes for any block name, no
context is torn down, and the active context stays absent. -/
theorem C7_absent_handled_by_mismatch (w : World) (m : Measure)
    (exc : ExcType) (scid : Nat) (n : String) (i : Nat)
    (hs : m.start_context = some scid) (hc : w.current = none) :
    (Measure.exit w m exc).warnings
        = w.warnings ++ [WarnEvent.contextChanged m.name scid none]
    ∧ (Measure.exit w m exc).counters.block_ru_utime_seconds n
        = w.counters.block_ru_utime_seconds n
    ∧ (Measure.exit w m exc).counters.block_ru_stime_seconds n
        = w.counters.block_ru_stime_seconds n
    ∧ (Measure.exit w m exc).counters.block_db_txn_count n
        = w.counters.block_db_txn_count n
    ∧ (Measure.exit w m exc).counters.block_db_txn_duration_seconds n
        = w.counters.block_db_txn_duration_seconds n
    ∧ (Measure.exit w m exc).counters.block_db_sched_duration_seconds n
        = w.counters.block_db_sched_duration_seconds n
    ∧ (Measure.exit w m exc).exitCount i = w.exitCount i
    ∧ (Measure.exit w m exc).current = none := by
  simp [Measure.exit, isinstanceException, hs, hc, bump]

theorem C7_absent_handled_by_mismatch_witness :
    (mAcq.start_context = some 0 ∧ absentWorld.current = none)
    ∧ ((Measure.exit absentWorld mAcq ExcType.noExc).warnings
        = absentWorld.warnings ++ [WarnEvent.contextChanged mAcq.name 0 none]
    ∧ (Measure.exit absentWorld mAcq ExcType.noExc).counters.block_ru_utime_seconds "other"
        = absentWorld.counters.block_ru_utime_seconds "other"
    ∧ (Measure.exit absentWorld mAcq ExcType.noExc).counters.block_ru_stime_seconds "other"
        = absentWorld.counters.block_ru_stime_seconds "other"
    ∧ (Measure.exit absentWorld mAcq ExcType.noExc).counters.block_db_txn_count "other"
        = absentWorld.counters.block_db_txn_count "other"
    ∧ (Measure.exit absentWorld mAcq ExcType.noExc).counters.block_db_txn_duration_seconds "other"
        = absentWorld.counters.block_db_txn_duration_seconds "other"
    ∧ (Measure.exit absentWorld mAcq ExcType.noExc).counters.block_db_sched_duration_seconds "other"
        = absentWorld.counters.block_db_sched_duration_seconds "other"
    ∧ (Measure.exit absentWorld mAcq ExcType.noExc).exitCount 3
        = absentWorld.exitCount 3
    ∧ (Measure.exit absentWorld mAcq ExcType.noExc).current = none) :=
  ⟨⟨rfl, rfl⟩,
    C7_absent_handled_by_mismatch absentWorld mAcq ExcType.noExc 0 "other" 3
      rfl rfl⟩

/-- C5: when the same context (by identity) is active at Acquire and at
Release, each of the five resource/DB counters grows for the block name
by exactly the delta of the corresponding running total — CPU user and
system seconds as read, the db transaction count as a count, the two db
durations divided by 1000 — and is unchanged for every other block
name. -/
theorem C5_stable_context_deltas (w : World) (m : Measure) (exc : ExcType)
    (scid : Nat) (n : String)
    (hs : m.start_context = some scid) (hc : w.current = some scid) :
    (Measure.exit w m exc).counters.block_ru_utime_seconds n
        = w.counters.block_ru_utime_seconds n
          + (if n = m.name then (w.contexts scid).ru_utime - m.ru_utime else 0)
    ∧ (Measure.exit w m exc).counters.block_ru_stime_seconds n
        = w.counters.block_ru_stime_seconds n
          + (if n = m.name then (w.contexts scid).ru_stime - m.ru_stime else 0)
    ∧ (Measure.exit w m exc).counters.block_db_txn_count n
        = w.counters.block_db_txn_count n
          + (if n = m.name
              then (((w.contexts scid).db_txn_count - m.db_txn_count : ℤ) : ℚ)
              else 0)
    ∧ (Measure.exit w m exc).counters.block_db_txn_duration_seconds n
        = w.counters.block_db_txn_duration_seconds n
          + (if n = m.name
              then ((w.contexts scid).db_txn_duration_ms
                      - m.db_txn_duration_ms) / 1000
              else 0)
    ∧ (Measure.exit w m exc).counters.block_db_sched_duration_seconds n
        = w.counters.block_db_sched_duration_seconds n
          + (if n = m.name
              then ((w.contexts scid).db_sched_duration_ms
                      - m.db_sched_duration_ms) / 1000
              else 0) := by
  by_cases hcr : m.created_context <;> by_cases hn : n = m.name <;>
    simp [Measure.exit, isinstanceException, hs, hc, bump, hcr, hn]

theorem C5_stable_context_deltas_witness :
    (mAcq.start_context = some 0 ∧ busyWorld.current = some 0)
    ∧ ((Measure.exit busyWorld mAcq ExcType.noExc).counters.block_ru_utime_seconds "x"
        = busyWorld.counters.block_ru_utime_seconds "x"
          + (if "x" = mAcq.name
              then (busyWorld.contexts 0).ru_utime - mAcq.ru_utime else 0)
    ∧ (Measure.exit busyWorld mAcq ExcType.noExc).counters.block_ru_stime_seconds "x"
        = busyWorld.counters.block_ru_stime_seconds "x"
          + (if "x" = mAcq.name
              then (busyWorld.contexts 0).ru_stime - mAcq.ru_stime else 0)
    ∧ (Measure.exit busyWorld mAcq ExcType.noExc).counters.block_db_txn_count "x"
        = busyWorld.counters.block_db_txn_count "x"
          + (if "x" = mAcq.name
              then (((busyWorld.contexts 0).db_txn_count - mAcq.db_txn_count : ℤ) : ℚ)
              else 0)
    ∧ (Measure.exit busyWorld mAcq ExcType.noExc).counters.block_db_txn_duration_seconds "x"
        = busyWorld.counters.block_db_txn_duration_seconds "x"
          + (if "x" = mAcq.name
              then ((busyWorld.contexts 0).db_txn_duration_ms
                      - mAcq.db_txn_duration_ms) / 1000
              else 0)
    ∧ (Measure.exit busyWorld mAcq ExcType.noExc).counters.block_db_sched_duration_seconds "x"
        = busyWorld.counters.block_db_sched_duration_seconds "x"
          + (if "x" = mAcq.name
              then ((busyWorld.contexts 0).db_sched_duration_ms
                      - mAcq.db_sched_duration_ms) / 1000
              else 0)) :=
  ⟨⟨rfl, by decide⟩,
    C5_stable_context_deltas busyWorld mAcq ExcType.noExc 0 "x"
      rfl (by decide)⟩

/-- C3: an Acquire that finds no active context creates a new context
(identity w.nextId), enters it (it becomes the active context) and marks
the block as owning it; a Release that still sees that context active
tears it down exactly once (its teardown count rises by 1, every other
context is untouched), while a Release that sees a different active
context tears nothing down. -/
theorem C3_created_context_lifecycle (w w2 w3 : World) (name : String)
    (exc2 exc3 : ExcType) (i : Nat)
    (hw : w.current = none)
    (h2 : w2.current = some w.nextId)
    (h3 : w3.current ≠ some w.nextId) :
    (Measure.enter w (Measure.init name)).2.created_context = true
    ∧ (Measure.enter w (Measure.init name)).1.current = some w.nextId
    ∧ (Measure.enter w (Measure.init name)).2.start_context = some w.nextId
    ∧ (Measure.exit w2 (Measure.enter w (Measure.init name)).2 exc2).exitCount i
        = (if i = w.nextId then w2.exitCount i + 1 else w2.exitCount i)
    ∧ (Measure.exit w3 (Measure.enter w (Measure.init name)).2 exc3).exitCount i
        = w3.exitCount i := by
  refine ⟨?_, ?_, ?_, ?_, ?_⟩ <;>
    simp [Measure.enter, Measure.init, Measure.exit, isinstanceException,
      hw, h2, h3, bump]

theorem C3_created_context_lifecycle_witness :
    (absentWorld.current = none
      ∧ wCreated.current = some absentWorld.nextId
      ∧ baseWorld.current ≠ some absentWorld.nextId)
    ∧ ((Measure.enter absentWorld (Measure.init "x")).2.created_context = true
    ∧ (Measure.enter absentWorld (Measure.init "x")).1.current
        = some absentWorld.nextId
    ∧ (Measure.enter absentWorld (Measure.init "x")).2.start_context
        = some absentWorld.nextId
    ∧ (Measure.exit wCreated (Measure.enter absentWorld (Measure.init "x")).2
          ExcType.noExc).exitCount 6
        = (if 6 = absentWorld.nextId then wCreated.exitCount 6 + 1
            else wCreated.exitCount 6)
    ∧ (Measure.exit baseWorld (Measure.enter absentWorld (Measure.init "x")).2
          ExcType.noExc).exitCount 6
        = baseWorld.exitCount 6) :=
  ⟨⟨rfl, by decide, by decide⟩,
    C3_created_context_lifecycle absentWorld wCreated baseWorld "x"
      ExcType.noExc ExcType.noExc 6 rfl (by decide) (by decide)⟩

/-- C4: if the body wrapped by measure_func raises, the release
bookkeeping still runs — block_count for the block name grows by exactly
1 over the world at raise time — and the same exception then propagates
to the caller unchanged. -/
theorem C4_failure_still_counts (name : String) (func : World → RunResult)
    (w w2 : World) (e : String)
    (h : func (Measure.enter w (Measure.init name)).1
          = RunResult.raised e w2) :
    measure_func name func w
      = RunResult.raised e
          (Measure.exit w2 (Measure.enter w (Measure.init name)).2
            (ExcType.cls e))
    ∧ (Measure.exit w2 (Measure.enter w (Measure.init name)).2
          (ExcType.cls e)).counters.block_count name
        = w2.counters.block_count name + 1 := by
  constructor
  · simp [measure_func, withMeasure, h]
  · have h1 : (Measure.enter w (Measure.init name)).2.name = name := by
      simp [enter_name, Measure.init]
    have h2 := exit_block_count w2 (Measure.enter w (Measure.init name)).2
      (ExcType.cls e)
      (match w.current with | some cid => cid | none => w.nextId)
      (enter_start_context w (Measure.init name))
    rwa [h1] at h2

theorem C4_failure_still_counts_witness :
    (raiseBoom (Measure.enter baseWorld (Measure.init "x")).1
      = RunResult.raised "boom" (Measure.enter baseWorld (Measure.init "x")).1)
    ∧ (measure_func "x" raiseBoom baseWorld
        = RunResult.raised "boom"
            (Measure.exit (Measure.enter baseWorld (Measure.init "x")).1
              (Measure.enter baseWorld (Measure.init "x")).2
              (ExcType.cls "boom"))
    ∧ (Measure.exit (Measure.enter baseWorld (Measure.init "x")).1
          (Measure.enter baseWorld (Measure.init "x")).2
          (ExcType.cls "boom")).counters.block_count "x"
        = (Measure.enter baseWorld (Measure.init "x")).1.counters.block_count "x"
          + 1) :=
  ⟨rfl,
    C4_failure_still_counts "x" raiseBoom baseWorld
      (Measure.enter baseWorld (Measure.init "x")).1 "boom" rfl⟩

/-- C1 fails on the code: in the spec scenario (enter at 1000ms with no
active context, release at 1300ms, so D = 300), Release adds the raw
millisecond duration 300 to block_time_seconds for block "x", not
D/1000 = 3/10 — the source calls block_timer.inc_by(duration, name)
without converting the millisecond duration to seconds. -/
theorem C1_block_time_gets_milliseconds :
    (scenMid.clockMs - (Measure.enter scen0 (Measure.init "x")).2.start : ℤ)
        = 300
    ∧ (Measure.exit scenMid (Measure.enter scen0 (Measure.init "x")).2
          ExcType.noExc).counters.block_time_seconds "x" = 300
    ∧ ((300 : ℚ) ≠ 300 / 1000) := by
  refine ⟨by decide, ?_, by norm_num⟩
  norm_num [Measure.exit, Measure.enter, Measure.init, isinstanceException,
    scenMid, scen0, zeroCounters, bump, freshContext]
  rw [if_neg (by decide : ¬ ((some 0 : Option Nat) = none))]
  norm_num [bump]

/-- C9: Release never decrements a counter: if the clock did not run
backwards and the running totals of the baseline context did not
decrease, every one of the seven counters is, at every block name, at
least its previous value after Measure.exit. -/
theorem C9_counters_never_decrease (w : World) (m : Measure)
    (exc : ExcType) (n : String)
    (hdur : m.start ≤ w.clockMs)
    (hmono : m.start_context.elim True (fun scid =>
      m.ru_utime ≤ (w.contexts scid).ru_utime
      ∧ m.ru_stime ≤ (w.contexts scid).ru_stime
      ∧ m.db_txn_count ≤ (w.contexts scid).db_txn_count
      ∧ m.db_txn_duration_ms ≤ (w.contexts scid).db_txn_duration_ms
      ∧ m.db_sched_duration_ms ≤ (w.contexts scid).db_sched_duration_ms)) :
    w.counters.block_count n ≤ (Measure.exit w m exc).counters.block_count n
    ∧ w.counters.block_time_seconds n
        ≤ (Measure.exit w m exc).counters.block_time_seconds n
    ∧ w.counters.block_ru_utime_seconds n
        ≤ (Measure.exit w m exc).counters.block_ru_utime_seconds n
    ∧ w.counters.block_ru_stime_seconds n
        ≤ (Measure.exit w m exc).counters.block_ru_stime_seconds n
    ∧ w.counters.block_db_txn_count n
        ≤ (Measure.exit w m exc).counters.block_db_txn_count n
    ∧ w.counters.block_db_txn_duration_seconds n
        ≤ (Measure.exit w m exc).counters.block_db_txn_duration_seconds n
    ∧ w.counters.block_db_sched_duration_seconds n
        ≤ (Measure.exit w m exc).counters.block_db_sched_duration_seconds n := by
  cases h : m.start_context with
  | none => simp [Measure.exit, isinstanceException, h]
  | some scid =>
    rw [h] at hmono
    obtain ⟨h1, h2, h3, h4, h5⟩ := hmono
    have hd : (0 : ℚ) ≤ ((w.clockMs - m.start : ℤ) : ℚ) := by
      have h0 : (0 : ℤ) ≤ w.clockMs - m.start := sub_nonneg.mpr hdur
      exact_mod_cast h0
    have d0 : (0 : ℚ) ≤ 1 := by norm_num
    have d1 : (0 : ℚ) ≤ (w.contexts scid).ru_utime - m.ru_utime :=
      sub_nonneg.mpr h1
    have d2 : (0 : ℚ) ≤ (w.contexts scid).ru_stime - m.ru_stime :=
      sub_nonneg.mpr h2
    have d3 : (0 : ℚ)
        ≤ (((w.contexts scid).db_txn_count - m.db_txn_count : ℤ) : ℚ) := by
      have h0 : (0 : ℤ) ≤ (w.contexts scid).db_txn_count - m.db_txn_count :=
        sub_nonneg.mpr h3
      exact_mod_cast h0
    have d4 : (0 : ℚ)
        ≤ ((w.contexts scid).db_txn_duration_ms - m.db_txn_duration_ms) / 1000 :=
      div_nonneg (sub_nonneg.mpr h4) (by norm_num)
    have d5 : (0 : ℚ)
        ≤ ((w.contexts scid).db_sched_duration_ms - m.db_sched_duration_ms) / 1000 :=
      div_nonneg (sub_nonneg.mpr h5) (by norm_num)
    simp only [Measure.exit, isinstanceException, Bool.false_eq_true,
      if_false, h]
    split_ifs with hc habs hcr
    · exact ⟨le_bump _ _ _ _ d0, le_bump _ _ _ _ hd, le_refl _, le_refl _,
        le_refl _, le_refl _, le_refl _⟩
    · exact ⟨le_bump _ _ _ _ d0, le_bump _ _ _ _ hd, le_refl _, le_refl _,
        le_refl _, le_refl _, le_refl _⟩
    · exact ⟨le_bump _ _ _ _ d0, le_bump _ _ _ _ hd, le_bump _ _ _ _ d1,
        le_bump _ _ _ _ d2, le_bump _ _ _ _ d3, le_bump _ _ _ _ d4,
        le_bump _ _ _ _ d5⟩
    · exact ⟨le_bump _ _ _ _ d0, le_bump _ _ _ _ hd, le_bump _ _ _ _ d1,
        le_bump _ _ _ _ d2, le_bump _ _ _ _ d3, le_bump _ _ _ _ d4,
        le_bump _ _ _ _ d5⟩

theorem C9_counters_never_decrease_witness :
    (mAcq.start ≤ busyWorld.clockMs
      ∧ mAcq.start_context.elim True (fun scid =>
          mAcq.ru_utime ≤ (busyWorld.contexts scid).ru_utime
          ∧ mAcq.ru_stime ≤ (busyWorld.contexts scid).ru_stime
          ∧ mAcq.db_txn_count ≤ (busyWorld.contexts scid).db_txn_count
          ∧ mAcq.db_txn_duration_ms
              ≤ (busyWorld.contexts scid).db_txn_duration_ms
          ∧ mAcq.db_sched_duration_ms
              ≤ (busyWorld.contexts scid).db_sched_duration_ms))
    ∧ (busyWorld.counters.block_count "x"
        ≤ (Measure.exit busyWorld mAcq ExcType.noExc).counters.block_count "x"
    ∧ busyWorld.counters.block_time_seconds "x"
        ≤ (Measure.exit busyWorld mAcq ExcType.noExc).counters.block_time_seconds "x"
    ∧ busyWorld.counters.block_ru_utime_seconds "x"
        ≤ (Measure.exit busyWorld mAcq ExcType.noExc).counters.block_ru_utime_seconds "x"
    ∧ busyWorld.counters.block_ru_stime_seconds "x"
        ≤ (Measure.exit busyWorld mAcq ExcType.noExc).counters.block_ru_stime_seconds "x"
    ∧ busyWorld.counters.block_db_txn_count "x"
        ≤ (Measure.exit busyWorld mAcq ExcType.noExc).counters.block_db_txn_count "x"
    ∧ busyWorld.counters.block_db_txn_duration_seconds "x"
        ≤ (Measure.exit busyWorld mAcq ExcType.noExc).counters.block_db_txn_duration_seconds "x"
    ∧ busyWorld.counters.block_db_sched_duration_seconds "x"
        ≤ (Measure.exit busyWorld mAcq ExcType.noExc).counters.block_db_sched_duration_seconds "x") :=
  ⟨⟨by decide,
      by refine ⟨?_, ?_, ?_, ?_, ?_⟩ <;>
        norm_num [mAcq, busyWorld, sameWorld, baseWorld, ctxBusy]⟩,
    C9_counters_never_decrease busyWorld mAcq ExcType.noExc "x"
      (by decide)
      (by refine ⟨?_, ?_, ?_, ?_, ?_⟩ <;>
        norm_num [mAcq, busyWorld, sameWorld, baseWorld, ctxBusy])⟩

/-- C10: after a completed Acquire the recorded baseline context is
always present (enter always stores one), an absent active context at
Release is handled by the context-mismatch branch (the warning carries
the baseline identity and the absent current context), and no Release,
on any world and any Measure, can emit anything but a contextChanged
warning — the dedicated absence branch is unreachable. -/
theorem C10_absence_branch_unreachable (w wE : World) (m : Measure)
    (exc : ExcType) (nameE : String) (scid : Nat)
    (hs : m.start_context = some scid) (hc : w.current = none) :
    (Measure.enter wE (Measure.init nameE)).2.start_context.isSome = true
    ∧ (Measure.exit w m exc).warnings
        = w.warnings ++ [WarnEvent.contextChanged m.name scid none]
    ∧ (∀ (w2 : World) (m2 : Measure) (e2 : ExcType),
        (Measure.exit w2 m2 e2).warnings = w2.warnings
        ∨ ∃ s c, (Measure.exit w2 m2 e2).warnings
            = w2.warnings ++ [WarnEvent.contextChanged m2.name s c]) := by
  refine ⟨by rw [enter_start_context]; rfl, ?_, ?_⟩
  · simp [Measure.exit, isinstanceException, hs, hc]
  · intro w2 m2 e2
    cases h2 : m2.start_context with
    | none => exact Or.inl (by simp [Measure.exit, isinstanceException, h2])
    | some s =>
      by_cases hc2 : w2.current = some s
      · refine Or.inl ?_
        by_cases hcr : m2.created_context <;>
          simp [Measure.exit, isinstanceException, h2, hc2, hcr]
      · exact Or.inr ⟨s, w2.current,
          by simp [Measure.exit, isinstanceException, h2, hc2]⟩

theorem C10_absence_branch_unreachable_witness :
    (mAcq.start_context = some 0 ∧ absentWorld.current = none)
    ∧ (Measure.enter baseWorld (Measure.init "y")).2.start_context.isSome = true
    ∧ (Measure.exit absentWorld mAcq ExcType.noExc).warnings
        = absentWorld.warnings ++ [WarnEvent.contextChanged mAcq.name 0 none] :=
  ⟨⟨rfl, rfl⟩,
    (C10_absence_branch_unreachable absentWorld baseWorld mAcq ExcType.noExc
      "y" 0 rfl rfl).1,
    (C10_absence_branch_unreachable absentWorld baseWorld mAcq ExcType.noExc
      "y" 0 rfl rfl).2.1⟩
